import Mathlib

/-!
Shallow embedding of `langchain/retrievers/metal.py` (class `MetalRetriever`).

Python dictionaries are modelled as insertion-ordered association lists,
dictionary values as the inductive type `Val`, and raised exceptions as the
`Err` type threaded through `Except`.  The external Metal client is modelled
as a function from the query mapping and the keyword parameters to either an
error (an exception raised by the client) or a response mapping.  Retrieval
additionally returns the adapter state after the call and the list of search
calls made to the client, so that frame and side-effect properties are
statable.
-/

namespace MetalSpec

/-- A Python value stored in a result record or parameter mapping. -/
inductive Val where
  | str : String → Val
  | int : Int → Val
  deriving DecidableEq, Repr

/-- A Python dict with string keys, as an insertion-ordered association list. -/
abbrev Record := List (String × Val)

/-- The keyword-parameter mapping `params` (`**self.params` at the call site). -/
abbrev Params := List (String × Val)

/-- The mapping returned by `client.search`: string keys, where the value of
interest (`"data"`) is an ordered sequence of result records. -/
abbrev Response := List (String × List Record)

/-- Exceptions that the embedded code can raise or propagate. -/
inductive Err where
  | keyError : String → Err
  | valueError : String → Err
  | notImplemented : Err
  | clientError : String → Err
  deriving DecidableEq, Repr

/-- The external `metal_sdk.metal.Metal` client: its `search` method, taking
the positional query mapping and the keyword parameters, and either raising
an exception or returning a response mapping. -/
structure Metal where
  search : Record → Params → Except Err Response

/-- An arbitrary Python object passed as the `client` argument of
`MetalRetriever.__init__`: either an actual `Metal` instance or some other
object, carried with the rendering of `type(client)`. -/
inductive PyObject where
  | metal : Metal → PyObject
  | other : String → PyObject

/-- Adapter state stored by `__init__`: `self.client` and `self.params`. -/
structure MetalRetriever where
  client : Metal
  params : Params

/-- Python truthiness of `params or {}`: `None` and the empty dict are falsy,
so both are replaced by the empty dict; any non-empty dict is kept as is. -/
def pyOrEmpty (params : Option Params) : Params :=
  match params with
  | none => []
  | some p => if p.isEmpty then [] else p

/-- Message of the `ValueError` raised by `__init__`, with the rendering of
`type(client)` interpolated at the end. -/
def unexpectedClientMsg (tyName : String) : String :=
  "Got unexpected client, should be of type metal_sdk.metal.Metal. Instead, got "
    ++ tyName

/-- Embedding of `MetalRetriever.__init__(self, client, params=None)`:
raises `ValueError` naming `type(client)` unless `client` is a `Metal`
instance, otherwise stores the client and `params or {}`. -/
def init (client : PyObject) (params : Option Params) :
    Except Err MetalRetriever :=
  match client with
  | .other tyName => .error (.valueError (unexpectedClientMsg tyName))
  | .metal m => .ok { client := m, params := pyOrEmpty params }

/-- One invocation of `self.client.search(...)`: the positional query mapping
and the keyword arguments it received. -/
structure SearchCall where
  query : Record
  kwargs : Params
  deriving DecidableEq, Repr

/-- The produced `Document(page_content=..., metadata=...)`. -/
structure Document where
  page_content : Val
  metadata : List (String × Val)
  deriving DecidableEq, Repr

/-- The body of the `for r in results["data"]` loop: for each record in
order, compute `metadata = {k: v for k, v in r.items() if k != "text"}` and
append `Document(page_content=r["text"], metadata=metadata)`; a record with
no `"text"` key raises `KeyError` and the loop is abandoned. -/
def buildDocs : List Record → Except Err (List Document)
  | [] => .ok []
  | r :: rs =>
      match List.lookup "text" r with
      | none => .error (.keyError "text")
      | some t =>
          match buildDocs rs with
          | .error e => .error e
          | .ok ds =>
              .ok ({ page_content := t,
                     metadata := r.filter (fun kv => kv.1 ≠ "text") } :: ds)

/-- Embedding of `MetalRetriever._get_relevant_documents(self, query)`:
calls `self.client.search({"text": query}, **self.params)`, looks up
`results["data"]` (raising `KeyError` if absent), and builds one document per
record.  Returns the adapter state after the call, the list of search calls
made, and the outcome. -/
def getRelevantDocuments (self : MetalRetriever) (query : String) :
    MetalRetriever × List SearchCall × Except Err (List Document) :=
  let call : SearchCall := { query := [("text", .str query)], kwargs := self.params }
  match self.client.search [("text", .str query)] self.params with
  | .error e => (self, [call], .error e)
  | .ok results =>
      match List.lookup "data" results with
      | none => (self, [call], .error (.keyError "data"))
      | some recs => (self, [call], buildDocs recs)

/-- Embedding of `MetalRetriever._aget_relevant_documents(self, query)`:
raises `NotImplementedError` without calling the client. -/
def agetRelevantDocuments (_self : MetalRetriever) (_query : String) :
    List SearchCall × Except Err (List Document) :=
  ([], .error .notImplemented)

/-- Concrete client for witnesses: always raises the same client error. -/
def failingClient : Metal :=
  { search := fun _ _ => .error (.clientError "connection refused") }

/-- Concrete client for witnesses: returns a response with no `"data"` key. -/
def noDataClient : Metal :=
  { search := fun _ _ => .ok [("results", [])] }

/-- Concrete records for witnesses, mirroring the stub
`[{"text": "a", "score": 9}, {"text": "b", "score": 5}]`. -/
def sampleRecs : List Record :=
  [[("text", .str "a"), ("score", .int 9)],
   [("text", .str "b"), ("score", .int 5)]]

/-- Concrete two-record response used by witnesses: `{"data": sampleRecs}`. -/
def sampleResponse : Response :=
  [("data", sampleRecs)]

/-- Concrete client for witnesses: always returns `sampleResponse`. -/
def sampleClient : Metal :=
  { search := fun _ _ => .ok sampleResponse }

/-- Concrete response for witnesses whose second record has no `"text"` key. -/
def missingTextResponse : Response :=
  [("data", [[("text", .str "a")], [("score", .int 5)]])]

/-- Concrete client for witnesses: always returns `missingTextResponse`. -/
def missingTextClient : Metal :=
  { search := fun _ _ => .ok missingTextResponse }

lemma pyOrEmpty_eq_getD (params : Option Params) :
    pyOrEmpty params = params.getD [] := by
  match params with
  | none => rfl
  | some [] => rfl
  | some (kv :: p) => rfl

lemma getRelevantDocuments_state_trace (self : MetalRetriever) (q : String) :
    (getRelevantDocuments self q).1 = self ∧
    (getRelevantDocuments self q).2.1 =
      [{ query := [("text", .str q)], kwargs := self.params }] := by
  unfold getRelevantDocuments
  cases h : self.client.search [("text", .str q)] self.params with
  | error e => simp
  | ok results =>
      cases h2 : List.lookup "data" results with
      | none => simp [h2]
      | some recs => simp [h2]

lemma buildDocs_error_of_missing_text (recs : List Record)
    (h : ∃ r ∈ recs, List.lookup "text" r = none) :
    buildDocs recs = .error (.keyError "text") := by
  induction recs with
  | nil => rcases h with ⟨r, hr, _⟩; cases hr
  | cons r rs ih =>
      rcases h with ⟨r', hr', hnone⟩
      rcases List.mem_cons.mp hr' with rfl | hmem
      · simp [buildDocs, hnone]
      · cases hl : List.lookup "text" r with
        | none => simp [buildDocs, hl]
        | some t => simp [buildDocs, hl, ih ⟨r', hmem, hnone⟩]

lemma buildDocs_ok_of_all_text (recs : List Record)
    (h : ∀ r ∈ recs, (List.lookup "text" r).isSome) :
    buildDocs recs = .ok (recs.map fun r =>
      { page_content := (List.lookup "text" r).getD (.str ""),
        metadata := r.filter fun kv => kv.1 ≠ "text" }) := by
  induction recs with
  | nil => rfl
  | cons r rs ih =>
      have hr := h r (List.mem_cons_self r rs)
      cases hl : List.lookup "text" r with
      | none => rw [hl] at hr; simp at hr
      | some t =>
          have ih2 := ih fun r' hr' => h r' (List.mem_cons_of_mem r hr')
          simp [buildDocs, hl, ih2]

end MetalSpec

namespace MetalSpec

/-- C1: when the client returns a response whose `"data"` entry is a
sequence of records each containing a `"text"` key, retrieve returns one
document per record in the same order, the document's content being the
record's `"text"` value and its metadata containing exactly the record's
other key-value pairs unmodified; an empty record sequence yields an empty
document sequence. -/
theorem retrieve_maps_records_to_documents
    (self : MetalRetriever) (q : String)
    (results : Response) (recs : List Record)
    (h1 : self.client.search [("text", .str q)] self.params = .ok results)
    (h2 : List.lookup "data" results = some recs)
    (h3 : ∀ r ∈ recs, (List.lookup "text" r).isSome) :
    ∃ docs : List Document,
      getRelevantDocuments self q =
        (self, [{ query := [("text", .str q)], kwargs := self.params }],
         .ok docs) ∧
      docs.length = recs.length ∧
      (∀ i (hi : i < recs.length) (hd : i < docs.length),
        List.lookup "text" recs[i] = some (docs[i].page_content) ∧
        ∀ k v, ((k, v) ∈ docs[i].metadata ↔
          (k ≠ "text" ∧ (k, v) ∈ recs[i]))) ∧
      (recs = [] → docs = []) := by
  refine ⟨recs.map fun r =>
      { page_content := (List.lookup "text" r).getD (.str ""),
        metadata := r.filter fun kv => kv.1 ≠ "text" }, ?_, ?_, ?_, ?_⟩
  · unfold getRelevantDocuments
    rw [h1]
    simp [h2, buildDocs_ok_of_all_text recs h3]
  · simp
  · intro i hi hd
    have hmem : recs[i] ∈ recs := List.getElem_mem hi
    have hr := h3 recs[i] hmem
    cases hl : List.lookup "text" recs[i] with
    | none => rw [hl] at hr; simp at hr
    | some t =>
        constructor
        · simp [hl]
        · intro k v
          simp only [List.getElem_map, List.mem_filter]
          constructor
          · rintro ⟨hkv, hk⟩
            exact ⟨by simpa using hk, hkv⟩
          · rintro ⟨hk, hkv⟩
            exact ⟨hkv, by simpa using hk⟩
  · intro hrecs
    subst hrecs
    rfl

/-- Witness for C1 at the concrete two-record client stub. -/
theorem retrieve_maps_records_to_documents_witness :
    ∃ docs : List Document,
      getRelevantDocuments { client := sampleClient, params := [] } "q" =
        ({ client := sampleClient, params := [] },
         [{ query := [("text", .str "q")], kwargs := [] }],
         .ok docs) ∧
      docs.length = sampleRecs.length ∧
      (∀ i (hi : i < sampleRecs.length) (hd : i < docs.length),
        List.lookup "text" sampleRecs[i] = some (docs[i].page_content) ∧
        ∀ k v, ((k, v) ∈ docs[i].metadata ↔
          (k ≠ "text" ∧ (k, v) ∈ sampleRecs[i]))) ∧
      (sampleRecs = [] → docs = []) :=
  retrieve_maps_records_to_documents
    { client := sampleClient, params := [] } "q" sampleResponse sampleRecs
    rfl rfl (by decide)

/-- C4: when some record in the client's `"data"` sequence lacks a `"text"`
key, retrieve fails with a `KeyError` for `"text"` that propagates to the
caller; no default content is substituted. -/
theorem retrieve_key_error_on_missing_text
    (self : MetalRetriever) (q : String)
    (results : Response) (recs : List Record)
    (h1 : self.client.search [("text", .str q)] self.params = .ok results)
    (h2 : List.lookup "data" results = some recs)
    (h3 : ∃ r ∈ recs, List.lookup "text" r = none) :
    getRelevantDocuments self q =
      (self, [{ query := [("text", .str q)], kwargs := self.params }],
       .error (.keyError "text")) := by
  unfold getRelevantDocuments
  rw [h1]
  simp [h2, buildDocs_error_of_missing_text recs h3]

/-- Witness for C4 at a concrete client whose second record has no
`"text"` key. -/
theorem retrieve_key_error_on_missing_text_witness :
    getRelevantDocuments { client := missingTextClient, params := [] } "q" =
      ({ client := missingTextClient, params := [] },
       [{ query := [("text", .str "q")], kwargs := [] }],
       .error (.keyError "text")) :=
  retrieve_key_error_on_missing_text
    { client := missingTextClient, params := [] } "q" missingTextResponse
    [[("text", .str "a")], [("score", .int 5)]]
    rfl rfl ⟨[("score", .int 5)], by simp, rfl⟩

/-- C2: every invocation of retrieve calls the client's search operation
exactly once, with the query mapping `{"text": query}` as the positional
argument and the stored parameter mapping passed through as the keyword
arguments. -/
theorem retrieve_calls_search_with_query_and_params
    (self : MetalRetriever) (q : String) :
    (getRelevantDocuments self q).2.1 =
      [{ query := [("text", .str q)], kwargs := self.params }] :=
  (getRelevantDocuments_state_trace self q).2

/-- C3: constructing the adapter with an object that is not a `Metal`
instance fails with a `ValueError` whose message contains the name of the
actual type received, and no adapter state is produced. -/
theorem init_rejects_non_metal (tyName : String) (params : Option Params) :
    init (.other tyName) params =
      .error (.valueError (unexpectedClientMsg tyName)) ∧
    ∃ pre, unexpectedClientMsg tyName = pre ++ tyName :=
  ⟨rfl,
   "Got unexpected client, should be of type metal_sdk.metal.Metal. Instead, got ",
   rfl⟩

/-- C5: any error raised by the client's search operation propagates to the
caller unchanged, and no documents are returned. -/
theorem retrieve_propagates_client_error
    (self : MetalRetriever) (q : String) (e : Err)
    (h : self.client.search [("text", .str q)] self.params = .error e) :
    getRelevantDocuments self q =
      (self, [{ query := [("text", .str q)], kwargs := self.params }],
       .error e) := by
  unfold getRelevantDocuments
  rw [h]

/-- Witness for C5 at a concrete failing client. -/
theorem retrieve_propagates_client_error_witness :
    getRelevantDocuments { client := failingClient, params := [] } "q" =
      ({ client := failingClient, params := [] },
       [{ query := [("text", .str "q")], kwargs := [] }],
       .error (.clientError "connection refused")) :=
  retrieve_propagates_client_error
    { client := failingClient, params := [] } "q"
    (.clientError "connection refused") rfl

/-- C6: the asynchronous retrieval operation always fails with the
not-implemented signal, for any adapter state and any query (including the
empty string), returns no documents, and makes no call to the client. -/
theorem aget_always_not_implemented (self : MetalRetriever) (q : String) :
    agetRelevantDocuments self q = ([], .error .notImplemented) :=
  rfl

/-- C7: constructing the adapter with a valid client stores the client
reference and the parameter mapping, defaulting to the empty mapping when
no parameters are supplied. -/
theorem init_stores_client_and_params (m : Metal) (params : Option Params) :
    init (.metal m) params = .ok { client := m, params := params.getD [] } := by
  unfold init
  rw [pyOrEmpty_eq_getD]

/-- Witness for C7: hypothesis-free, but instantiated concretely anyway. -/
theorem init_stores_client_and_params_witness :
    init (.metal sampleClient) (some [("limit", .int 3)]) =
      .ok { client := sampleClient, params := [("limit", .int 3)] } :=
  init_stores_client_and_params sampleClient (some [("limit", .int 3)])

/-- C8: retrieve leaves the adapter state unchanged and its only side
effect is a single invocation of the client's search operation. -/
theorem retrieve_preserves_state_single_call
    (self : MetalRetriever) (q : String) :
    (getRelevantDocuments self q).1 = self ∧
    (getRelevantDocuments self q).2.1.length = 1 := by
  obtain ⟨h1, h2⟩ := getRelevantDocuments_state_trace self q
  exact ⟨h1, by rw [h2]; rfl⟩

/-- C9: when the client's response lacks a `"data"` key, retrieve fails
with a `KeyError` for `"data"` and returns no documents. -/
theorem retrieve_key_error_on_missing_data
    (self : MetalRetriever) (q : String) (results : Response)
    (h1 : self.client.search [("text", .str q)] self.params = .ok results)
    (h2 : List.lookup "data" results = none) :
    getRelevantDocuments self q =
      (self, [{ query := [("text", .str q)], kwargs := self.params }],
       .error (.keyError "data")) := by
  unfold getRelevantDocuments
  rw [h1]
  simp [h2]

/-- Witness for C9 at a concrete client whose response has no `"data"`. -/
theorem retrieve_key_error_on_missing_data_witness :
    getRelevantDocuments { client := noDataClient, params := [] } "q" =
      ({ client := noDataClient, params := [] },
       [{ query := [("text", .str "q")], kwargs := [] }],
       .error (.keyError "data")) :=
  retrieve_key_error_on_missing_data
    { client := noDataClient, params := [] } "q" [("results", [])] rfl rfl

/-- C10: supplying an explicitly empty parameter mapping is identical to
supplying none: both store the empty mapping, and every search call then
carries no extra keyword arguments. -/
theorem init_empty_params_same_as_none (m : Metal) (q : String) :
    init (.metal m) (some []) = init (.metal m) none ∧
    init (.metal m) (some []) = .ok { client := m, params := [] } ∧
    (getRelevantDocuments { client := m, params := [] } q).2.1 =
      [{ query := [("text", .str q)], kwargs := [] }] :=
  ⟨rfl, rfl,
   (getRelevantDocuments_state_trace { client := m, params := [] } q).2⟩

end MetalSpec
